import Mathlib

/-!
Verification development for the FitU calorie-tracking backend.

The JavaScript sources are shallowly embedded: database rows become Lean
structures, the persistent store becomes an explicit `St` value, JavaScript
numbers become `ℤ`/`ℚ`, nullable columns and optional request fields become
`Option`, and `Math.round` becomes `jsRound`. Each embedded function carries a
doc comment naming the source file and lines it translates.
-/

namespace FitU

/-- JavaScript Math.round: rounds half toward positive infinity,
so `Math.round x = ⌊x + 1/2⌋` for every real argument. -/
def jsRound (q : ℚ) : ℤ := ⌊q + 1/2⌋

/-- Milliseconds per calendar day. Local calendar dates are modelled by the
timestamp of their local midnight; the source builds day windows with
`setHours(0,0,0,0)` and `setHours(23,59,59,999)` and steps days with
`setDate(+i)`, which the model renders as fixed 86400000 ms days. -/
def msPerDay : ℤ := 86400000

/-- The inclusive day window `[00:00:00.000, 23:59:59.999]` used by the
`Op.between` queries: `dayStart ≤ t ≤ dayStart + 86399999`. -/
def inDayWindow (dayStart t : ℤ) : Bool :=
  decide (dayStart ≤ t) && decide (t ≤ dayStart + (msPerDay - 1))

/-- A value stored in the INTEGER `user_id` column of `calorie_entries` and
`user_exercises`. The schema (calorie-entries.model.js lines 5-12) declares an
integer referencing `users.id`, but the food controller (part_007 line 26)
writes the Firebase UID string `req.user.uid` into it, so the model keeps both
shapes. -/
inductive UserIdColumn
  | intVal (n : ℕ)
  | strVal (s : String)
deriving DecidableEq

/-- The SQL equality test applied when a service filters rows by the integer
`users.id`. An integer value compares directly; for a string value MySQL
coerces the string to a number, which equals a positive auto-increment id
exactly when the string is the decimal numeral of that id (non-numeric strings
coerce to 0, and row ids are positive). -/
def userIdColumnMatches (v : UserIdColumn) (id : ℕ) : Bool :=
  match v with
  | .intVal n => n == id
  | .strVal s => s == Nat.repr id

/-- Exercise catalog category enum (exercises model, part_001 lines 10-12). -/
inductive Category
  | cardio | strength | flexibility | sports | functional
deriving DecidableEq

/-- Exercise difficulty enum (exercises model, part_001 lines 23-27). -/
inductive Difficulty
  | beginner | intermediate | advanced
deriving DecidableEq

/-- User activity level enum (users model, part_002). -/
inductive ActivityLevel
  | sedentary | lightly_active | moderately_active | very_active | extremely_active
deriving DecidableEq

/-- User fitness goal enum (users model, part_002). `Option FitnessGoal` with
`none` models a null or unrecognized goal string. -/
inductive FitnessGoal
  | lose_weight | build_muscle | improve_fitness | maintain_weight | gain_weight
deriving DecidableEq

/-- A row of the `users` table (users model, part_002). Columns not read by the
embedded services (email, height, weight, ...) are omitted.
`daily_calorie_goal` is a nullable integer column. -/
structure FitUser where
  id : ℕ
  firebase_uid : String
  daily_calorie_goal : Option ℤ
  activity_level : Option ActivityLevel
  fitness_goal : Option FitnessGoal
deriving DecidableEq

/-- A row of the `exercises` catalog table (part_001). `calories_per_minute`
is a nullable decimal column. -/
structure Exercise where
  id : ℕ
  name : String
  category : Category
  difficulty_level : Difficulty
  calories_per_minute : Option ℚ
  muscle_groups : List String
  is_active : Bool
deriving DecidableEq

/-- A row of `calorie_entries` (calorie-entries.model.js). Macro columns and
notes, which no embedded computation reads, are omitted. -/
structure FoodEntry where
  user_id : UserIdColumn
  food_name : String
  calories_per_serving : ℤ
  servings_consumed : ℚ
  consumed_at : ℤ
deriving DecidableEq

/-- A row of `user_exercises` (part_003 migration). Pass-through columns not
read by the embedded computations (sets, reps, weight, distance, notes) are
omitted. -/
structure ExerciseLog where
  user_id : UserIdColumn
  exercise_id : ℕ
  duration_minutes : Option ℚ
  calories_burned : Option ℤ
  performed_at : ℤ
  rating : Option ℕ
deriving DecidableEq

/-- The persistent store the services read and write. -/
structure St where
  users : List FitUser
  exercises : List Exercise
  foodEntries : List FoodEntry
  exerciseLogs : List ExerciseLog

/-- `Users.findOne({ where: { firebase_uid: userId } })`: the first user row
whose `firebase_uid` equals the given string. -/
def findUserByUid (st : St) (uid : String) : Option FitUser :=
  st.users.find? fun u => u.firebase_uid == uid

/-- The `total_calories` VIRTUAL column of calorie_entries
(calorie-entries.model.js lines 43-48):
`Math.round(calories_per_serving * servings_consumed)` recomputed on read. -/
def totalCalories (e : FoodEntry) : ℤ :=
  jsRound ((e.calories_per_serving : ℚ) * e.servings_consumed)

/-- Embeds `getDailyFoodCalories` (calorie-tracking.service.js lines 20-55):
resolve the Firebase UID to a user row (0 when absent), select the food
entries of that integer user id whose `consumed_at` lies in the inclusive day
window, sum the raw products `calories_per_serving * servings_consumed`, and
round the sum once at the end. -/
def getDailyFoodCalories (st : St) (uid : String) (dayStart : ℤ) : ℤ :=
  match findUserByUid st uid with
  | none => 0
  | some user =>
    let foodEntries := st.foodEntries.filter fun e =>
      userIdColumnMatches e.user_id user.id && inDayWindow dayStart e.consumed_at
    jsRound (foodEntries.foldl
      (fun total e => total + (e.calories_per_serving : ℚ) * e.servings_consumed) 0)

/-- Embeds `getDailyExerciseCalories` (calorie-tracking.service.js lines
63-98): like the food side, but sums `calories_burned || 0` over the exercise
logs in the day window. -/
def getDailyExerciseCalories (st : St) (uid : String) (dayStart : ℤ) : ℤ :=
  match findUserByUid st uid with
  | none => 0
  | some user =>
    let exerciseEntries := st.exerciseLogs.filter fun e =>
      userIdColumnMatches e.user_id user.id && inDayWindow dayStart e.performed_at
    jsRound (exerciseEntries.foldl
      (fun total e => total + ((e.calories_burned.getD 0 : ℤ) : ℚ)) 0)

/-- Embeds `getUserDailyGoal` (calorie-tracking.service.js lines 105-123):
0 when the user is absent or `daily_calorie_goal` is falsy (null or 0);
any read failure also falls back to 0, so the embedding is a total function. -/
def getUserDailyGoal (st : St) (uid : String) : ℤ :=
  match findUserByUid st uid with
  | none => 0
  | some user =>
    match user.daily_calorie_goal with
    | none => 0
    | some g => if g = 0 then 0 else g

/-- The `status` string of a daily balance report. -/
inductive BalanceStatus
  | UNDER_GOAL | OVER_GOAL | NO_GOAL_SET
deriving DecidableEq

/-- The record returned by `calculateDailyBalance`; `date` is the local
midnight timestamp of the reported day. -/
structure DailyBalance where
  date : ℤ
  food_calories : ℤ
  exercise_calories : ℤ
  net_calories : ℤ
  daily_goal : ℤ
  calorie_balance : ℤ
  is_under_goal : Bool
  is_over_goal : Bool
  goal_percentage : ℤ
  status : BalanceStatus
  remaining_calories : ℤ
  excess_calories : ℤ
deriving DecidableEq

/-- Embeds `calculateDailyBalance` (calorie-tracking.service.js lines
131-168): net = food - exercise; when the goal is 0 the report is
unconditionally under-goal with status NO_GOAL_SET; otherwise under iff
net ≤ goal; percentage, remaining and excess follow the source formulas. -/
def calculateDailyBalance (st : St) (uid : String) (dayStart : ℤ) : DailyBalance :=
  let foodCalories := getDailyFoodCalories st uid dayStart
  let exerciseCalories := getDailyExerciseCalories st uid dayStart
  let dailyGoal := getUserDailyGoal st uid
  let netCalories := foodCalories - exerciseCalories
  let calorieBalance := dailyGoal - netCalories
  let isUnderGoal : Bool := if dailyGoal = 0 then true else decide (netCalories ≤ dailyGoal)
  let isOverGoal : Bool := if dailyGoal = 0 then false else decide (dailyGoal < netCalories)
  let goalPercentage : ℤ :=
    if 0 < dailyGoal then jsRound ((netCalories : ℚ) / (dailyGoal : ℚ) * 100) else 0
  { date := dayStart
    food_calories := foodCalories
    exercise_calories := exerciseCalories
    net_calories := netCalories
    daily_goal := dailyGoal
    calorie_balance := calorieBalance
    is_under_goal := isUnderGoal
    is_over_goal := isOverGoal
    goal_percentage := goalPercentage
    status := if dailyGoal = 0 then BalanceStatus.NO_GOAL_SET
      else if isUnderGoal then BalanceStatus.UNDER_GOAL else BalanceStatus.OVER_GOAL
    remaining_calories := if 0 < dailyGoal ∧ isUnderGoal = true then calorieBalance else 0
    excess_calories := if 0 < dailyGoal ∧ isOverGoal = true then |calorieBalance| else 0 }

/-- The accumulator of the weekly `reduce` (calorie-tracking.service.js lines
190-202). -/
structure WeeklyTotals where
  total_food : ℤ
  total_exercise : ℤ
  total_net : ℤ
  days_under_goal : ℕ
  days_over_goal : ℕ
deriving DecidableEq

/-- One step of the weekly totals `reduce`. -/
def weeklyStep (t : WeeklyTotals) (day : DailyBalance) : WeeklyTotals :=
  { total_food := t.total_food + day.food_calories
    total_exercise := t.total_exercise + day.exercise_calories
    total_net := t.total_net + day.net_calories
    days_under_goal := t.days_under_goal + (if day.is_under_goal then 1 else 0)
    days_over_goal := t.days_over_goal + (if day.is_over_goal then 1 else 0) }

/-- The record returned by `getWeeklyBalance`. -/
structure WeeklyBalance where
  week_start : ℤ
  daily_balances : List DailyBalance
  weekly_totals : WeeklyTotals
  weekly_average_net : ℤ
  success_rate : ℤ

/-- Embeds `getWeeklyBalance` (calorie-tracking.service.js lines 176-214):
seven consecutive calendar days from the week start, their daily balances,
the reduced totals, `Math.round(totalNet / 7)` and
`Math.round(daysUnderGoal / 7 * 100)`. -/
def getWeeklyBalance (st : St) (uid : String) (weekStart : ℤ) : WeeklyBalance :=
  let weekDays := ([0, 1, 2, 3, 4, 5, 6] : List ℤ).map fun i =>
    calculateDailyBalance st uid (weekStart + i * msPerDay)
  let weeklyTotals := weekDays.foldl weeklyStep ⟨0, 0, 0, 0, 0⟩
  { week_start := weekStart
    daily_balances := weekDays
    weekly_totals := weeklyTotals
    weekly_average_net := jsRound ((weeklyTotals.total_net : ℚ) / 7)
    success_rate := jsRound ((weeklyTotals.days_under_goal : ℚ) / 7 * 100) }

/-- JavaScript `x || d` for an optional numeric field: the default replaces
both a missing value and a zero value. -/
def jsNumOr (o : Option ℚ) (d : ℚ) : ℚ :=
  match o with
  | some q => if q = 0 then d else q
  | none => d

/-- Embeds `createFoodEntry` (part_007 lines 6-55). The controller writes
`user_id: req.user.uid` - the Firebase UID string - into the INTEGER
`user_id` column; `servings_consumed || 1.0` and `consumed_at || new Date()`
supply the defaults. The new row is appended to the store. -/
def createFoodEntry (st : St) (reqUserUid : String) (food_name : String)
    (calories_per_serving : ℤ) (servings_consumed : Option ℚ)
    (consumed_at : Option ℤ) (now : ℤ) : St :=
  let newEntry : FoodEntry :=
    { user_id := UserIdColumn.strVal reqUserUid
      food_name := food_name
      calories_per_serving := calories_per_serving
      servings_consumed := jsNumOr servings_consumed 1
      consumed_at := consumed_at.getD now }
  { st with foodEntries := st.foodEntries ++ [newEntry] }

/-- JavaScript truthiness for an optional rational request field or column:
truthy iff present and nonzero. -/
def jsNumTruthy (o : Option ℚ) : Bool :=
  match o with
  | some q => decide (q ≠ 0)
  | none => false

/-- JavaScript truthiness for an optional integer request field or column. -/
def jsIntTruthy (o : Option ℤ) : Bool :=
  match o with
  | some n => decide (n ≠ 0)
  | none => false

/-- The Sequelize `include` join of a log with its catalog exercise
(part_006 lines 130-134): a left join, so the exercise may be absent. -/
def logJoinedExercise (st : St) (log : ExerciseLog) : Option Exercise :=
  st.exercises.find? fun e => e.id == log.exercise_id

/-- The last-30-days log query of `getUserExerciseStats` (part_006 lines
120-135): logs of the integer user id with `performed_at ≥ now - 30 days`. -/
def recentLogs (st : St) (userId : ℕ) (now : ℤ) : List ExerciseLog :=
  st.exerciseLogs.filter fun l =>
    userIdColumnMatches l.user_id userId && decide (now - 30 * msPerDay ≤ l.performed_at)

/-- The three mutable counters of the `forEach` in `getUserExerciseStats`
(part_006 lines 149-168). -/
structure StatsAcc where
  manualInputs : ℕ
  totalCalorieDiff : ℚ
  comparableExercises : ℕ
deriving DecidableEq

/-- One iteration of the `forEach` in `getUserExerciseStats` (part_006 lines
153-168): only logs whose joined exercise, preset rate and duration are all
truthy are compared; a log is counted as a manual input when the percent
difference between actual and expected calories exceeds 5; every compared log
increments the comparable counter. -/
def statsStep (st : St) (acc : StatsAcc) (log : ExerciseLog) : StatsAcc :=
  match logJoinedExercise st log, log.duration_minutes with
  | some ex, some dur =>
    match ex.calories_per_minute with
    | some cpm =>
      if cpm = 0 ∨ dur = 0 then acc
      else
        let expectedCalories := cpm * dur
        let actualCalories : ℚ := ((log.calories_burned.getD 0 : ℤ) : ℚ)
        let difference := |actualCalories - expectedCalories|
        let percentDiff := difference / expectedCalories * 100
        let acc1 := if 5 < percentDiff then
            { acc with manualInputs := acc.manualInputs + 1
                       totalCalorieDiff := acc.totalCalorieDiff + difference }
          else acc
        { acc1 with comparableExercises := acc1.comparableExercises + 1 }
    | none => acc
  | _, _ => acc

/-- The record returned by `getUserExerciseStats` (part_006 lines 173-178). -/
structure UserStats where
  total_workouts : ℕ
  manual_input_rate : ℤ
  is_likely_tracker_user : Bool
  avg_manual_vs_preset_diff : ℤ
deriving DecidableEq

/-- Embeds `getUserExerciseStats` (part_006 lines 118-188): over the last 30
days of logs, compute the manual-input rate as a percentage of all recent
workouts, classify the user as a likely fitness-tracker user when the
unrounded rate exceeds 30, and average the calorie differences over the
compared logs. An empty history short-circuits to the zero profile. -/
def getUserExerciseStats (st : St) (userId : ℕ) (now : ℤ) : UserStats :=
  let recentExercises := recentLogs st userId now
  let totalWorkouts := recentExercises.length
  if totalWorkouts = 0 then
    { total_workouts := 0, manual_input_rate := 0
      is_likely_tracker_user := false, avg_manual_vs_preset_diff := 0 }
  else
    let acc := recentExercises.foldl (statsStep st) ⟨0, 0, 0⟩
    let manualInputRate : ℚ := (acc.manualInputs : ℚ) / (totalWorkouts : ℚ) * 100
    let avgDifference : ℚ :=
      if 0 < acc.comparableExercises then acc.totalCalorieDiff / (acc.comparableExercises : ℚ)
      else 0
    { total_workouts := totalWorkouts
      manual_input_rate := jsRound manualInputRate
      is_likely_tracker_user := decide (30 < manualInputRate)
      avg_manual_vs_preset_diff := jsRound avgDifference }

/-- The `type` tags of the four candidate smart suggestions (part_006 lines
197-234). -/
inductive SuggestionType
  | fitness_tracker_detected
  | high_intensity_cardio
  | strength_training_variation
  | new_user_education
deriving DecidableEq

/-- True when the exercise has a preset rate strictly above the threshold;
a null preset rate compares false, as in JavaScript. -/
def cpmExceeds (e : Exercise) (threshold : ℚ) : Bool :=
  match e.calories_per_minute with
  | some r => decide (threshold < r)
  | none => false

/-- Embeds `generateSmartSuggestion` (part_006 lines 193-237): push the
applicable suggestions in source order - tracker nudge, high-intensity cardio
(cardio with rate above 10), long strength session (strength with duration
above 20), new-user info (fewer than 5 workouts) - and return the first, or
none. The calculated-calories argument only feeds the message text and is
kept for arity fidelity. -/
def generateSmartSuggestion (userStats : UserStats) (exercise : Exercise)
    (duration : ℚ) (_calculatedCalories : ℤ) : Option SuggestionType :=
  let suggestions : List SuggestionType :=
    (if userStats.is_likely_tracker_user then [SuggestionType.fitness_tracker_detected] else [])
    ++ (if exercise.category = Category.cardio ∧ cpmExceeds exercise 10 = true then
          [SuggestionType.high_intensity_cardio] else [])
    ++ (if exercise.category = Category.strength ∧ 20 < duration then
          [SuggestionType.strength_training_variation] else [])
    ++ (if userStats.total_workouts < 5 then [SuggestionType.new_user_education] else [])
  suggestions.head?

/-- The `calculation_method` value in the logExercise response. -/
inductive CalcMethod
  | automatic | manual
deriving DecidableEq

/-- The two failure responses of `logExercise` (part_006 lines 31-45). -/
inductive LogError
  | userNotFound | exerciseNotFound
deriving DecidableEq

/-- The successful response payload of `logExercise`. -/
structure LogResult where
  newLog : ExerciseLog
  calculation_method : CalcMethod
  preset_calories_per_min : Option ℚ
  smart_suggestion : Option SuggestionType
deriving DecidableEq

/-- Embeds `logExercise` (part_006 lines 10-113). The source mutates
`finalCaloriesBurned`, `calculationMethod` and `smartSuggestion` through an
if / else-if: when `calories_burned` is falsy and both `duration_minutes` and
the preset rate are truthy, calories are `Math.round(rate * duration)` with a
smart suggestion (automatic branch); when `calories_burned` is truthy it is
stored verbatim (manual branch); otherwise the stored value falls through
`finalCaloriesBurned || 0` to 0. The new log keys `user_id` by the integer
`user.id` resolved from the Firebase UID. -/
def logExercise (st : St) (uid : String) (exercise_id : ℕ)
    (duration_minutes : Option ℚ) (calories_burned : Option ℤ)
    (performed_at : Option ℤ) (rating : Option ℕ) (now : ℤ) :
    Except LogError (St × LogResult) :=
  match findUserByUid st uid with
  | none => Except.error LogError.userNotFound
  | some user =>
    match st.exercises.find? (fun e => e.id == exercise_id) with
    | none => Except.error LogError.exerciseNotFound
    | some exercise =>
      let userStats := getUserExerciseStats st user.id now
      let autoBranch := !jsIntTruthy calories_burned && jsNumTruthy duration_minutes
        && jsNumTruthy exercise.calories_per_minute
      let autoCalories : ℤ :=
        jsRound ((exercise.calories_per_minute.getD 0) * (duration_minutes.getD 0))
      let finalCaloriesBurned : Option ℤ :=
        if autoBranch then some autoCalories else calories_burned
      let calculationMethod : CalcMethod :=
        if autoBranch = false ∧ jsIntTruthy calories_burned = true then CalcMethod.manual
        else CalcMethod.automatic
      let smartSuggestion : Option SuggestionType :=
        if autoBranch then
          generateSmartSuggestion userStats exercise (duration_minutes.getD 0) autoCalories
        else none
      let newLog : ExerciseLog :=
        { user_id := UserIdColumn.intVal user.id
          exercise_id := exercise_id
          duration_minutes := duration_minutes
          calories_burned := some (finalCaloriesBurned.getD 0)
          performed_at := performed_at.getD now
          rating := rating }
      Except.ok ({ st with exerciseLogs := st.exerciseLogs ++ [newLog] },
        { newLog := newLog
          calculation_method := calculationMethod
          preset_calories_per_min := exercise.calories_per_minute
          smart_suggestion := smartSuggestion })

/-- The per-goal configuration dictionary `goalMappings` of
`getGoalBasedRecommendations` (part_004 lines 87-118). -/
structure GoalConfig where
  priorities : List Category
  intensity : String
  duration_preference : String
  calorie_focus : Bool := false
  progression_focus : Bool := false
  balanced : Bool := false
  maintenance : Bool := false
  strength_focus : Bool := false
deriving DecidableEq

/-- The five entries of `goalMappings` (part_004 lines 87-118). -/
def goalMappings : FitnessGoal → GoalConfig
  | FitnessGoal.lose_weight =>
    { priorities := [Category.cardio, Category.functional], intensity := "high"
      duration_preference := "medium_long", calorie_focus := true }
  | FitnessGoal.build_muscle =>
    { priorities := [Category.strength], intensity := "high"
      duration_preference := "medium", progression_focus := true }
  | FitnessGoal.improve_fitness =>
    { priorities := [Category.cardio, Category.functional, Category.strength]
      intensity := "medium", duration_preference := "medium", balanced := true }
  | FitnessGoal.maintain_weight =>
    { priorities := [Category.cardio, Category.strength, Category.flexibility]
      intensity := "medium", duration_preference := "short_medium", maintenance := true }
  | FitnessGoal.gain_weight =>
    { priorities := [Category.strength], intensity := "high"
      duration_preference := "medium_long", strength_focus := true }

/-- `goalMappings[user.fitness_goal] || goalMappings['improve_fitness']`
(part_004 line 120): an unrecognized or null goal defaults to the
improve_fitness mapping. -/
def goalConfigFor (goal : Option FitnessGoal) : GoalConfig :=
  match goal with
  | some g => goalMappings g
  | none => goalMappings FitnessGoal.improve_fitness

/-- The `levelMap` dictionary (part_004 lines 150-156). -/
def levelMap : ActivityLevel → Difficulty
  | ActivityLevel.sedentary => Difficulty.beginner
  | ActivityLevel.lightly_active => Difficulty.beginner
  | ActivityLevel.moderately_active => Difficulty.intermediate
  | ActivityLevel.very_active => Difficulty.intermediate
  | ActivityLevel.extremely_active => Difficulty.advanced

/-- JavaScript `Array.prototype.indexOf` over the priority list: the first
index of the category, or -1 when absent. -/
def jsIndexOf (l : List Category) (c : Category) : ℤ :=
  match l.findIdx? (fun x => x == c) with
  | some i => (i : ℤ)
  | none => -1

/-- The per-exercise score of `getGoalBasedRecommendations` (part_004 lines
131-160): 20 points per priority rank, 25 for a calorie-focused goal with
rate above 8, 30 for a strength-focused goal on a strength exercise, 15 when
the difficulty matches the level derived from the user activity level
(defaulting to moderately_active when null). -/
def goalBasedScore (goalConfig : GoalConfig) (user : FitUser) (exercise : Exercise) : ℤ :=
  let categoryIndex := jsIndexOf goalConfig.priorities exercise.category
  let base := ((goalConfig.priorities.length : ℤ) - categoryIndex) * 20
  let calorieBonus :=
    if goalConfig.calorie_focus = true ∧ cpmExceeds exercise 8 = true then 25 else 0
  let strengthBonus :=
    if goalConfig.strength_focus = true ∧ exercise.category = Category.strength then 30 else 0
  let userLevel := user.activity_level.getD ActivityLevel.moderately_active
  let difficultyBonus := if exercise.difficulty_level = levelMap userLevel then 15 else 0
  base + calorieBonus + strengthBonus + difficultyBonus

/-- The options object of the recommendation entry points; only `limit` is
read by the embedded goal-based scorer. -/
structure RecOptions where
  limit : Option ℕ
deriving DecidableEq

/-- JavaScript `options.limit || d`: a missing or zero limit falls back to the
default. -/
def jsLimit (o : Option ℕ) (d : ℕ) : ℕ :=
  match o with
  | some n => if n = 0 then d else n
  | none => d

/-- A scored catalog exercise produced by the goal-based scorer. -/
structure ScoredRec where
  exercise : Exercise
  ai_score : ℤ
deriving DecidableEq

/-- Embeds `getGoalBasedRecommendations` (part_004 lines 86-172): filter the
active catalog to the goal-priority categories, score each candidate, sort by
score descending (`Array.prototype.sort` is stable, modelled by stable
insertion sort) and keep the first `options.limit || 8`. -/
def getGoalBasedRecommendations (st : St) (user : FitUser) (options : RecOptions) :
    List ScoredRec :=
  let goalConfig := goalConfigFor user.fitness_goal
  let exercises := st.exercises.filter fun e =>
    goalConfig.priorities.contains e.category && e.is_active
  let scoredExercises := exercises.map fun e =>
    ScoredRec.mk e (goalBasedScore goalConfig user e)
  (List.insertionSort (fun a b => b.ai_score ≤ a.ai_score) scoredExercises).take
    (jsLimit options.limit 8)

/-- The source tag attached during fusion (part_004 lines 325-331). -/
inductive RecSource
  | goal_based | progressive | behavioral | balance | adaptive
deriving DecidableEq

/-- The fixed weight table of the fusion step (part_004 lines 326-330 and
68-74). -/
def sourceWeight : RecSource → ℚ
  | RecSource.goal_based => 35/100
  | RecSource.progressive => 25/100
  | RecSource.behavioral => 20/100
  | RecSource.balance => 15/100
  | RecSource.adaptive => 5/100

/-- The per-scorer output shape the fusion reads: an exercise id and a raw
score. -/
structure RawRec where
  id : ℕ
  ai_score : ℚ
deriving DecidableEq

/-- A recommendation after tagging with its source and weight (part_004 lines
325-331). -/
structure TaggedRec where
  id : ℕ
  ai_score : ℚ
  source : RecSource
  weight : ℚ
deriving DecidableEq

/-- A recommendation after final scoring (part_004 lines 337-341). -/
structure FinalRec where
  id : ℕ
  ai_score : ℚ
  source : RecSource
  weight : ℚ
  final_ai_score : ℤ
  confidence : ℤ
deriving DecidableEq

/-- The `map` attaching one source tag and weight to a scorer output list. -/
def tagWith (source : RecSource) (weight : ℚ) (l : List RawRec) : List TaggedRec :=
  l.map fun r => { id := r.id, ai_score := r.ai_score, source := source, weight := weight }

/-- The worker of `deduplicateRecommendations`: the `seen` set accumulated by
the source filter, which keeps only the first occurrence of each id. -/
def dedupGo (seen : List ℕ) : List TaggedRec → List TaggedRec
  | [] => []
  | r :: rest =>
    if seen.contains r.id then dedupGo seen rest
    else r :: dedupGo (r.id :: seen) rest

/-- Embeds `deduplicateRecommendations` (part_004 lines 398-405). -/
def deduplicateRecommendations (recommendations : List TaggedRec) : List TaggedRec :=
  dedupGo [] recommendations

/-- Embeds `calculateConfidence` (part_004 lines 407-414): 50 base, +30 for
a goal-based source, +20 for a raw score above 80, capped at 100. -/
def calculateConfidence (recommendation : TaggedRec) : ℤ :=
  let c0 : ℤ := 50
  let c1 := if recommendation.source = RecSource.goal_based then c0 + 30 else c0
  let c2 := if (80 : ℚ) < recommendation.ai_score then c1 + 20 else c1
  min 100 c2

/-- Embeds `fuseRecommendations` (part_004 lines 324-346): concatenate the
five scorer outputs tagged with source and weight (goal-based first),
de-duplicate by exercise id keeping first occurrences, compute
`final_ai_score = Math.round(ai_score * weight)` and the confidence, sort by
final score descending, and slice to the fixed cap of 10. -/
def fuseRecommendations (goalBased progressive behavioral balance adaptive : List RawRec) :
    List FinalRec :=
  let allRecs :=
    tagWith RecSource.goal_based (35/100) goalBased
    ++ tagWith RecSource.progressive (25/100) progressive
    ++ tagWith RecSource.behavioral (20/100) behavioral
    ++ tagWith RecSource.balance (15/100) balance
    ++ tagWith RecSource.adaptive (5/100) adaptive
  let uniqueRecs := deduplicateRecommendations allRecs
  let finalRecommendations := uniqueRecs.map fun r =>
    FinalRec.mk r.id r.ai_score r.source r.weight (jsRound (r.ai_score * r.weight))
      (calculateConfidence r)
  (List.insertionSort (fun a b => b.final_ai_score ≤ a.final_ai_score)
    finalRecommendations).take 10

/-- The projection the fusion applies to a goal-based scorer output: the
fusion reads only the exercise id and the raw score off each item. -/
def toRawRecs (l : List ScoredRec) : List RawRec :=
  l.map fun r => { id := r.exercise.id, ai_score := (r.ai_score : ℚ) }

/-- Embeds `getUserFitnessProfile` (part_004 lines 349-353). -/
def getUserFitnessProfile (st : St) (firebaseUid : String) : Option FitUser :=
  st.users.find? fun u => u.firebase_uid == firebaseUid

/-- The fatal failure of the recommendation path (part_004 lines 29-31). -/
inductive RecError
  | userNotFound
deriving DecidableEq

/-- Embeds `getPersonalizedRecommendations` (part_004 lines 25-80). The user
lookup and the user-not-found failure, which precede every other step, are
translated from the source. The remainder of the pipeline - history query,
five scorers, fusion - is abstracted as the `pipeline` argument because the
leaf analysis helpers it calls (`analyzeProgression`,
`findProgressionExercise`, `analyzeBehavioralPatterns`,
`findSimilarExercises`, `analyzeMuscleGroupBalance`, `extractMuscleGroups`,
`analyzeRecentPerformance`, `adjustDifficultyLevel`) are referenced but not
defined anywhere in the repository sources. -/
def getPersonalizedRecommendations (st : St) (firebaseUid : String)
    (pipeline : FitUser → List FinalRec) : Except RecError (List FinalRec) :=
  match getUserFitnessProfile st firebaseUid with
  | none => Except.error RecError.userNotFound
  | some user => Except.ok (pipeline user)

/-! Claim-worded reference definitions. Each follows the words of a claim of
the specification, to be compared with the corresponding embedded source
function. -/

/-- The daily food total as claim C1 words it: over the entries of the user
whose consumed-at falls within the inclusive day window, sum the per-entry
values `round(calories_per_serving * servings_consumed)` - the derived
`total_calories` of each entry - and round the daily sum itself. -/
def claimDailyFoodCalories (st : St) (uid : String) (dayStart : ℤ) : ℤ :=
  match findUserByUid st uid with
  | none => 0
  | some user =>
    let entries := st.foodEntries.filter fun e =>
      userIdColumnMatches e.user_id user.id && inDayWindow dayStart e.consumed_at
    jsRound ((entries.map fun e => ((totalCalories e : ℤ) : ℚ)).sum)

/-- The activity-level-derived expected difficulty as claim C7 words it:
sedentary and lightly_active map to beginner, moderately_active and
very_active to intermediate, extremely_active to advanced. -/
def expectedDifficultyFor : ActivityLevel → Difficulty
  | ActivityLevel.sedentary => Difficulty.beginner
  | ActivityLevel.lightly_active => Difficulty.beginner
  | ActivityLevel.moderately_active => Difficulty.intermediate
  | ActivityLevel.very_active => Difficulty.intermediate
  | ActivityLevel.extremely_active => Difficulty.advanced

/-- The goal-based score as claim C7 words it: 20 times (priority list length
minus category index), plus 25 if the goal mapping has calorie focus and the
exercise burns more than 8 calories per minute, plus 30 if it has strength
focus and the category is strength, plus 15 if the exercise difficulty
matches the expected difficulty derived from the user activity level. -/
def claimGoalScore (goalConfig : GoalConfig) (user : FitUser) (exercise : Exercise) : ℤ :=
  20 * ((goalConfig.priorities.length : ℤ) - jsIndexOf goalConfig.priorities exercise.category)
  + (if goalConfig.calorie_focus = true ∧ cpmExceeds exercise 8 = true then 25 else 0)
  + (if goalConfig.strength_focus = true ∧ exercise.category = Category.strength then 30 else 0)
  + (if exercise.difficulty_level
        = expectedDifficultyFor (user.activity_level.getD ActivityLevel.moderately_active)
     then 15 else 0)

/-- The suggestion choice as claim C9 words it: the single highest-priority
applicable suggestion in the order tracker nudge, high-intensity cardio or
long strength session, new-user information; none when nothing applies. -/
def claimSuggestion (userStats : UserStats) (exercise : Exercise) (duration : ℚ) :
    Option SuggestionType :=
  if userStats.is_likely_tracker_user then some SuggestionType.fitness_tracker_detected
  else if exercise.category = Category.cardio ∧ cpmExceeds exercise 10 = true then
    some SuggestionType.high_intensity_cardio
  else if exercise.category = Category.strength ∧ 20 < duration then
    some SuggestionType.strength_training_variation
  else if userStats.total_workouts < 5 then some SuggestionType.new_user_education
  else none

/-- The flagging rule of claim C9: a log with a comparable preset rate - its
joined exercise present with truthy rate, and a truthy duration - is flagged
likely-manual when the percent difference between actual and expected
calories exceeds 5. -/
def likelyManualFlag (st : St) (log : ExerciseLog) : Bool :=
  match logJoinedExercise st log, log.duration_minutes with
  | some ex, some dur =>
    match ex.calories_per_minute with
    | some cpm =>
      if cpm = 0 ∨ dur = 0 then false
      else decide (5 < |((log.calories_burned.getD 0 : ℤ) : ℚ) - cpm * dur| / (cpm * dur) * 100)
    | none => false
  | _, _ => false

/-! Helper lemmas shared by the claim theorems. -/

/-- A left fold that adds `f` of each element equals the initial value plus the
sum of the mapped list. -/
theorem foldl_add_map_sum {α M : Type} [AddCommMonoid M] (f : α → M) (l : List α) (a : M) :
    l.foldl (fun t e => t + f e) a = a + (l.map f).sum := by
  induction l generalizing a with
  | nil => simp
  | cons x xs ih => simp [ih, add_assoc]

/-- The over-goal flag of every daily balance is the negation of its
under-goal flag. -/
theorem balance_over_eq_not_under (st : St) (uid : String) (d : ℤ) :
    (calculateDailyBalance st uid d).is_over_goal
      = !(calculateDailyBalance st uid d).is_under_goal := by
  simp only [calculateDailyBalance]
  by_cases hg : getUserDailyGoal st uid = 0
  · simp [hg]
  · simp only [hg, if_false, ite_false]
    rcases le_or_lt (getDailyFoodCalories st uid d - getDailyExerciseCalories st uid d)
      (getUserDailyGoal st uid) with h | h
    · simp [h, not_lt.mpr h]
    · simp [h, not_le.mpr h]

/-- Claim C2: for every dailyBalance result, status is NO_GOAL_SET iff the
daily goal is 0; and when the goal is positive, under-goal holds iff
net ≤ goal, over-goal holds iff net > goal, the two flags are complementary,
goal_percentage = round(net / goal * 100), remaining_calories is
max(0, goal - net) when under goal and 0 otherwise, and excess_calories is
|goal - net| when over goal and 0 otherwise. -/
theorem c2_daily_balance_invariants (st : St) (uid : String) (d : ℤ) :
    ((calculateDailyBalance st uid d).status = BalanceStatus.NO_GOAL_SET
      ↔ (calculateDailyBalance st uid d).daily_goal = 0)
    ∧ (0 < (calculateDailyBalance st uid d).daily_goal →
        (((calculateDailyBalance st uid d).is_under_goal = true
            ↔ (calculateDailyBalance st uid d).net_calories
                ≤ (calculateDailyBalance st uid d).daily_goal)
          ∧ ((calculateDailyBalance st uid d).is_over_goal = true
            ↔ (calculateDailyBalance st uid d).daily_goal
                < (calculateDailyBalance st uid d).net_calories)
          ∧ (calculateDailyBalance st uid d).is_under_goal
              = !(calculateDailyBalance st uid d).is_over_goal
          ∧ (calculateDailyBalance st uid d).goal_percentage
              = jsRound (((calculateDailyBalance st uid d).net_calories : ℚ)
                  / ((calculateDailyBalance st uid d).daily_goal : ℚ) * 100)
          ∧ (calculateDailyBalance st uid d).remaining_calories
              = (if (calculateDailyBalance st uid d).is_under_goal = true
                 then max 0 ((calculateDailyBalance st uid d).daily_goal
                   - (calculateDailyBalance st uid d).net_calories) else 0)
          ∧ (calculateDailyBalance st uid d).excess_calories
              = (if (calculateDailyBalance st uid d).is_over_goal = true
                 then |(calculateDailyBalance st uid d).daily_goal
                   - (calculateDailyBalance st uid d).net_calories| else 0))) := by
  have hover := balance_over_eq_not_under st uid d
  simp only [calculateDailyBalance] at hover ⊢
  constructor
  · by_cases hg : getUserDailyGoal st uid = 0
    · simp [hg]
    · simp only [hg, if_false, ite_false]
      exact ⟨fun hst => absurd hst (by split <;> simp), fun h => h.elim⟩
  · intro h0
    have hg : getUserDailyGoal st uid ≠ 0 := by omega
    refine ⟨by simp [hg], by simp [hg], by rw [hover, Bool.not_not], by simp [h0], ?_, ?_⟩
    · rcases le_or_lt (getDailyFoodCalories st uid d - getDailyExerciseCalories st uid d)
        (getUserDailyGoal st uid) with hle | hlt
      · have hmax : max (0 : ℤ) (getUserDailyGoal st uid
            - (getDailyFoodCalories st uid d - getDailyExerciseCalories st uid d))
            = getUserDailyGoal st uid
              - (getDailyFoodCalories st uid d - getDailyExerciseCalories st uid d) :=
          max_eq_right (by omega)
        simp [hg, hle, h0, hmax]
      · simp [hg, not_le.mpr hlt, h0]
    · rcases le_or_lt (getDailyFoodCalories st uid d - getDailyExerciseCalories st uid d)
        (getUserDailyGoal st uid) with hle | hlt
      · simp [hg, not_lt.mpr hle, h0]
      · simp [hg, hlt, h0]

/-- The weekly reduce accumulates exactly the componentwise sums and flag
counts. -/
theorem weekly_foldl_spec (days : List DailyBalance) (t : WeeklyTotals) :
    days.foldl weeklyStep t =
      { total_food := t.total_food + (days.map fun b => b.food_calories).sum
        total_exercise := t.total_exercise + (days.map fun b => b.exercise_calories).sum
        total_net := t.total_net + (days.map fun b => b.net_calories).sum
        days_under_goal := t.days_under_goal + days.countP fun b => b.is_under_goal
        days_over_goal := t.days_over_goal + days.countP fun b => b.is_over_goal } := by
  induction days generalizing t with
  | nil => cases t; simp
  | cons b bs ih =>
    rw [List.foldl_cons, ih]
    cases hu : b.is_under_goal <;> cases ho : b.is_over_goal <;>
      simp [weeklyStep, WeeklyTotals.mk.injEq, List.countP_cons, hu, ho] <;>
      omega

/-- On a list of daily balances whose flags are complementary, the under and
over counts partition the length. -/
theorem countP_under_add_over (days : List DailyBalance)
    (h : ∀ b ∈ days, b.is_over_goal = !b.is_under_goal) :
    days.countP (fun b => b.is_under_goal) + days.countP (fun b => b.is_over_goal)
      = days.length := by
  induction days with
  | nil => simp
  | cons b bs ih =>
    have hb := h b (List.mem_cons_self b bs)
    have hbs := ih fun x hx => h x (List.mem_cons_of_mem b hx)
    cases hu : b.is_under_goal <;> simp [List.countP_cons, hb, hu] <;> omega

/-- Claim C6: every weeklyBalance consists of the 7 daily balances of the 7
consecutive days from the week start; the weekly food, exercise and net
totals are the sums of the per-day values; the under and over counts count
the per-day flags; the weekly average is round(total_net / 7); the success
rate is round(days_under_goal / 7 * 100). -/
theorem c6_weekly_balance_aggregation (st : St) (uid : String) (weekStart : ℤ) :
    (getWeeklyBalance st uid weekStart).daily_balances
        = (([0, 1, 2, 3, 4, 5, 6] : List ℤ).map fun i =>
            calculateDailyBalance st uid (weekStart + i * msPerDay))
    ∧ (getWeeklyBalance st uid weekStart).daily_balances.length = 7
    ∧ (getWeeklyBalance st uid weekStart).weekly_totals.total_food
        = ((getWeeklyBalance st uid weekStart).daily_balances.map fun b => b.food_calories).sum
    ∧ (getWeeklyBalance st uid weekStart).weekly_totals.total_exercise
        = ((getWeeklyBalance st uid weekStart).daily_balances.map fun b => b.exercise_calories).sum
    ∧ (getWeeklyBalance st uid weekStart).weekly_totals.total_net
        = ((getWeeklyBalance st uid weekStart).daily_balances.map fun b => b.net_calories).sum
    ∧ (getWeeklyBalance st uid weekStart).weekly_totals.days_under_goal
        = (getWeeklyBalance st uid weekStart).daily_balances.countP (fun b => b.is_under_goal)
    ∧ (getWeeklyBalance st uid weekStart).weekly_totals.days_over_goal
        = (getWeeklyBalance st uid weekStart).daily_balances.countP (fun b => b.is_over_goal)
    ∧ (getWeeklyBalance st uid weekStart).weekly_average_net
        = jsRound (((getWeeklyBalance st uid weekStart).weekly_totals.total_net : ℚ) / 7)
    ∧ (getWeeklyBalance st uid weekStart).success_rate
        = jsRound (((getWeeklyBalance st uid weekStart).weekly_totals.days_under_goal : ℚ)
            / 7 * 100) := by
  simp only [getWeeklyBalance, weekly_foldl_spec]
  refine ⟨by simp, ?_, by simp, by simp, by simp, by simp, by simp, by simp, by simp⟩
  rw [List.length_map]
  rfl

/-- Claim C10 (implicit): a daily balance with goal 0 is under goal and not
over goal; consequently every weekly balance satisfies
days_under_goal + days_over_goal = 7, so no-goal days are counted in
days_under_goal and feed the success rate. -/
theorem c10_no_goal_days_count_under (st : St) (uid : String) :
    (∀ d : ℤ, (calculateDailyBalance st uid d).daily_goal = 0 →
        (calculateDailyBalance st uid d).is_under_goal = true
        ∧ (calculateDailyBalance st uid d).is_over_goal = false)
    ∧ ∀ weekStart : ℤ,
        (getWeeklyBalance st uid weekStart).weekly_totals.days_under_goal
          + (getWeeklyBalance st uid weekStart).weekly_totals.days_over_goal = 7 := by
  constructor
  · intro d hd
    simp only [calculateDailyBalance] at hd ⊢
    simp [hd]
  · intro weekStart
    have hmem : ∀ b ∈ (([0, 1, 2, 3, 4, 5, 6] : List ℤ).map fun i =>
        calculateDailyBalance st uid (weekStart + i * msPerDay)),
        b.is_over_goal = !b.is_under_goal := by
      intro b hb
      rcases List.mem_map.mp hb with ⟨i, _, rfl⟩
      exact balance_over_eq_not_under st uid _
    have hcount := countP_under_add_over _ hmem
    simp only [getWeeklyBalance, weekly_foldl_spec, Nat.zero_add]
    rw [hcount, List.length_map]
    rfl

/-- Claim C8: asymmetric handling of a missing user. When no user row matches
the Firebase UID, the daily balance computation returns a total, goal-less,
zero-calorie report (it never raises), while the recommendation computation
always fails with the user-not-found error regardless of how the rest of the
pipeline would behave. -/
theorem c8_missing_user_asymmetry (st : St) (uid : String) (d : ℤ)
    (pipeline : FitUser → List FinalRec)
    (h : findUserByUid st uid = none) :
    getPersonalizedRecommendations st uid pipeline = Except.error RecError.userNotFound
    ∧ (calculateDailyBalance st uid d).daily_goal = 0
    ∧ (calculateDailyBalance st uid d).status = BalanceStatus.NO_GOAL_SET
    ∧ (calculateDailyBalance st uid d).food_calories = 0
    ∧ (calculateDailyBalance st uid d).exercise_calories = 0 := by
  have hp : getUserFitnessProfile st uid = none := h
  refine ⟨by simp [getPersonalizedRecommendations, hp], ?_, ?_, ?_, ?_⟩ <;>
    simp [calculateDailyBalance, getUserDailyGoal, getDailyFoodCalories,
      getDailyExerciseCalories, jsRound, h]

/-- The empty store used to witness claim C8. -/
def stEmpty : St := { users := [], exercises := [], foodEntries := [], exerciseLogs := [] }

/-- Witness for claim C8 at a concrete input: the empty store and an unknown
UID. -/
theorem c8_missing_user_asymmetry_witness :
    getPersonalizedRecommendations stEmpty "ghost" (fun _ => [])
        = Except.error RecError.userNotFound
    ∧ (calculateDailyBalance stEmpty "ghost" 0).daily_goal = 0
    ∧ (calculateDailyBalance stEmpty "ghost" 0).status = BalanceStatus.NO_GOAL_SET
    ∧ (calculateDailyBalance stEmpty "ghost" 0).food_calories = 0
    ∧ (calculateDailyBalance stEmpty "ghost" 0).exercise_calories = 0 :=
  c8_missing_user_asymmetry stEmpty "ghost" 0 (fun _ => []) rfl

/-- Concrete user for the claim C2 witness: daily goal 2500. -/
def uC2 : FitUser :=
  { id := 1
    firebase_uid := "u2"
    daily_calorie_goal := some 2500
    activity_level := none
    fitness_goal := none }

/-- Concrete food entry for the claim C2 witness: 1800 calories inside day 0. -/
def eC2 : FoodEntry :=
  { user_id := UserIdColumn.intVal 1
    food_name := "bowl"
    calories_per_serving := 1800
    servings_consumed := 1
    consumed_at := 1000 }

/-- Concrete store for the claim C2 witness. -/
def stC2 : St := { users := [uC2], exercises := [], foodEntries := [eC2], exerciseLogs := [] }

/-- Witness for claim C2 at a concrete input with a positive goal. -/
theorem c2_daily_balance_invariants_witness :
    ((calculateDailyBalance stC2 "u2" 0).is_under_goal = true
      ↔ (calculateDailyBalance stC2 "u2" 0).net_calories
          ≤ (calculateDailyBalance stC2 "u2" 0).daily_goal)
    ∧ (calculateDailyBalance stC2 "u2" 0).is_under_goal
        = !(calculateDailyBalance stC2 "u2" 0).is_over_goal :=
  have h0 : 0 < (calculateDailyBalance stC2 "u2" 0).daily_goal := by
    norm_num [calculateDailyBalance, getUserDailyGoal, findUserByUid, List.find?, stC2, uC2]
  ⟨((c2_daily_balance_invariants stC2 "u2" 0).2 h0).1,
   ((c2_daily_balance_invariants stC2 "u2" 0).2 h0).2.2.1⟩

/-- Concrete user for claim C1: no goal set. -/
def uC1 : FitUser :=
  { id := 1
    firebase_uid := "u1"
    daily_calorie_goal := none
    activity_level := none
    fitness_goal := none }

/-- Concrete food entry for claim C1: 10 calories per serving, a quarter
serving, so the raw product is 2.5 while the rounded per-entry total is 3. -/
def eC1a : FoodEntry :=
  { user_id := UserIdColumn.intVal 1
    food_name := "rice"
    calories_per_serving := 10
    servings_consumed := 1/4
    consumed_at := 1000 }

/-- A second identical entry at a later time of the same day. -/
def eC1b : FoodEntry := { eC1a with consumed_at := 2000 }

/-- Concrete store for claim C1. -/
def stC1 : St := { users := [uC1], exercises := [], foodEntries := [eC1a, eC1b], exerciseLogs := [] }

/-- Counterexample to claim C1 as stated: the service total for the day is
round(2.5 + 2.5) = 5, while the claim formula - round each entry first, then
round the sum - gives round(3 + 3) = 6. The two disagree, so the daily total
used by dailyBalance is not the rounded sum of rounded per-entry totals. -/
theorem c1_per_entry_rounding_counterexample :
    getDailyFoodCalories stC1 "u1" 0 = 5 ∧ claimDailyFoodCalories stC1 "u1" 0 = 6 := by
  constructor
  · norm_num [getDailyFoodCalories, findUserByUid, List.find?, List.filter,
      userIdColumnMatches, inDayWindow, msPerDay, jsRound, List.foldl, stC1, uC1, eC1a, eC1b]
  · norm_num [claimDailyFoodCalories, findUserByUid, List.find?, List.filter,
      userIdColumnMatches, inDayWindow, msPerDay, jsRound, totalCalories, stC1, uC1, eC1a, eC1b]

/-- Claim C1 as amended: for a resolved user, the daily food total is the
single rounding of the sum of the raw per-entry products over exactly the
entries of that user inside the inclusive day window; the per-entry rounding
of the claim exists only in the derived `total_calories` field of each entry
and does not feed the daily sum. -/
theorem c1_daily_food_total_amended (st : St) (uid : String) (dayStart : ℤ)
    (user : FitUser) (h : findUserByUid st uid = some user) :
    getDailyFoodCalories st uid dayStart
      = jsRound (((st.foodEntries.filter fun e =>
            userIdColumnMatches e.user_id user.id && inDayWindow dayStart e.consumed_at).map
          fun e => (e.calories_per_serving : ℚ) * e.servings_consumed).sum)
    ∧ ∀ e : FoodEntry, totalCalories e
        = jsRound ((e.calories_per_serving : ℚ) * e.servings_consumed) := by
  refine ⟨?_, fun e => rfl⟩
  simp only [getDailyFoodCalories, h]
  rw [foldl_add_map_sum]
  simp

/-- Witness for the amended claim C1 at the concrete store. -/
theorem c1_daily_food_total_amended_witness :
    getDailyFoodCalories stC1 "u1" 0
      = jsRound (((stC1.foodEntries.filter fun e =>
            userIdColumnMatches e.user_id uC1.id && inDayWindow 0 e.consumed_at).map
          fun e => (e.calories_per_serving : ℚ) * e.servings_consumed).sum)
    ∧ ∀ e : FoodEntry, totalCalories e
        = jsRound ((e.calories_per_serving : ℚ) * e.servings_consumed) :=
  c1_daily_food_total_amended stC1 "u1" 0 uC1 rfl

/-- Concrete user for claim C3: integer row id 1, non-numeric Firebase UID,
daily goal 2000. -/
def uC3 : FitUser :=
  { id := 1
    firebase_uid := "fb42"
    daily_calorie_goal := some 2000
    activity_level := none
    fitness_goal := none }

/-- Concrete store for claim C3 before logging. -/
def stC3 : St := { users := [uC3], exercises := [], foodEntries := [], exerciseLogs := [] }

/-- The store after logging 1800 food calories for noon of day 0 through
`createFoodEntry`, which keys the row by the Firebase UID string. -/
def stC3logged : St :=
  createFoodEntry stC3 "fb42" "pasta" 1800 (some 1) (some 43200000) 43200000

/-- A variant store holding the same 1800-calorie entry keyed by the integer
user id 1 - the keying `logExercise` uses - to show the balance pipeline
counts it as the claim expects once the key matches. -/
def stC3intKeyed : St :=
  { stC3 with foodEntries := [
    { user_id := UserIdColumn.intVal 1
      food_name := "pasta"
      calories_per_serving := 1800
      servings_consumed := 1
      consumed_at := 43200000 }] }

/-- Claim C3 evaluated on the code: the entry logged through createFoodEntry
is stored, but dailyBalance reports food_calories 0, net 0 and
remaining_calories 2000 instead of the claimed 1800 / 1800 / 200, because the
entry is keyed by the Firebase UID string while the balance query filters by
the integer user id. The same entry keyed by the integer id produces exactly
the claimed report, isolating the keying mismatch as the defect. -/
theorem c3_food_logging_balance_divergence :
    stC3logged.foodEntries.length = 1
    ∧ (calculateDailyBalance stC3logged "fb42" 0).food_calories = 0
    ∧ (calculateDailyBalance stC3logged "fb42" 0).net_calories = 0
    ∧ (calculateDailyBalance stC3logged "fb42" 0).remaining_calories = 2000
    ∧ (calculateDailyBalance stC3intKeyed "fb42" 0).food_calories = 1800
    ∧ (calculateDailyBalance stC3intKeyed "fb42" 0).exercise_calories = 0
    ∧ (calculateDailyBalance stC3intKeyed "fb42" 0).net_calories = 1800
    ∧ (calculateDailyBalance stC3intKeyed "fb42" 0).status = BalanceStatus.UNDER_GOAL
    ∧ (calculateDailyBalance stC3intKeyed "fb42" 0).remaining_calories = 200 := by
  have hkey : ("fb42" == Nat.repr 1) = false := by decide
  refine ⟨rfl, ?_, ?_, ?_, ?_, ?_, ?_, ?_, ?_⟩ <;>
    norm_num [calculateDailyBalance, getDailyFoodCalories, getDailyExerciseCalories,
      getUserDailyGoal, findUserByUid, List.find?, List.filter, userIdColumnMatches,
      inDayWindow, msPerDay, jsRound, List.foldl, stC3logged, createFoodEntry, jsNumOr,
      stC3intKeyed, stC3, uC3, hkey]

/-- Claim C5: for every exercise-log estimate with resolved user and
exercise - a truthy (non-null, non-zero) manual calories value is stored
verbatim with method manual; otherwise, when the duration and the preset
rate are both truthy, the stored calories are round(rate * duration) with
method automatic; otherwise 0 calories are stored with method automatic. -/
theorem c5_calorie_estimation (st : St) (uid : String) (exId : ℕ)
    (dm : Option ℚ) (cb : Option ℤ) (pAt : Option ℤ) (rating : Option ℕ) (now : ℤ)
    (user : FitUser) (exercise : Exercise)
    (hu : findUserByUid st uid = some user)
    (he : st.exercises.find? (fun e => e.id == exId) = some exercise) :
    (jsIntTruthy cb = true →
      (match logExercise st uid exId dm cb pAt rating now with
        | Except.ok p => some (p.2.newLog.calories_burned, p.2.calculation_method)
        | Except.error _ => none)
      = some (some (cb.getD 0), CalcMethod.manual))
    ∧ (jsIntTruthy cb = false → jsNumTruthy dm = true
        → jsNumTruthy exercise.calories_per_minute = true →
      (match logExercise st uid exId dm cb pAt rating now with
        | Except.ok p => some (p.2.newLog.calories_burned, p.2.calculation_method)
        | Except.error _ => none)
      = some (some (jsRound ((exercise.calories_per_minute.getD 0) * (dm.getD 0))),
          CalcMethod.automatic))
    ∧ (jsIntTruthy cb = false
        → ¬(jsNumTruthy dm = true ∧ jsNumTruthy exercise.calories_per_minute = true) →
      (match logExercise st uid exId dm cb pAt rating now with
        | Except.ok p => some (p.2.newLog.calories_burned, p.2.calculation_method)
        | Except.error _ => none)
      = some (some 0, CalcMethod.automatic)) := by
  refine ⟨fun h1 => ?_, fun h1 h2 h3 => ?_, fun h1 hn => ?_⟩
  · have hcb : cb.getD 0 ≠ 0 := by
      cases cb with
      | none => simp [jsIntTruthy] at h1
      | some c => simpa [jsIntTruthy] using h1
    simp [logExercise, hu, he, h1, hcb]
  · simp [logExercise, hu, he, h1, h2, h3]
  · have hauto : (jsNumTruthy dm && jsNumTruthy exercise.calories_per_minute) = false := by
      cases hdm : jsNumTruthy dm <;> cases hcpm : jsNumTruthy exercise.calories_per_minute <;>
        simp_all
    cases cb with
    | none => simp [logExercise, hu, he, h1, hauto, Bool.and_assoc]
    | some c =>
      have hc : c = 0 := by simpa [jsIntTruthy] using h1
      simp [logExercise, hu, he, h1, hauto, hc, Bool.and_assoc, jsIntTruthy]

/-- Concrete user for the claim C5 witness. -/
def uC5 : FitUser :=
  { id := 2
    firebase_uid := "u5"
    daily_calorie_goal := none
    activity_level := none
    fitness_goal := none }

/-- Concrete catalog exercise for the claim C5 witness: preset rate 12. -/
def exPress : Exercise :=
  { id := 7
    name := "press"
    category := Category.strength
    difficulty_level := Difficulty.beginner
    calories_per_minute := some 12
    muscle_groups := []
    is_active := true }

/-- Concrete store for the claim C5 witness. -/
def stC5 : St := { users := [uC5], exercises := [exPress], foodEntries := [], exerciseLogs := [] }

/-- Witness for claim C5: a manual value of 50 on a 10-minute log is stored
verbatim with method manual. -/
theorem c5_calorie_estimation_witness :
    (match logExercise stC5 "u5" 7 (some 10) (some 50) none none 0 with
      | Except.ok p => some (p.2.newLog.calories_burned, p.2.calculation_method)
      | Except.error _ => none)
    = some (some 50, CalcMethod.manual) := by
  have h := (c5_calorie_estimation stC5 "u5" 7 (some 10) (some 50) none none 0 uC5 exPress
    rfl rfl).1 (by decide)
  simpa using h

/-- The manual-input counter of the stats fold counts exactly the logs
flagged likely-manual. -/
theorem statsStep_manualInputs (st : St) (l : List ExerciseLog) (acc : StatsAcc) :
    (l.foldl (statsStep st) acc).manualInputs
      = acc.manualInputs + l.countP (likelyManualFlag st) := by
  induction l generalizing acc with
  | nil => simp
  | cons x xs ih =>
    have hstep : (statsStep st acc x).manualInputs
        = acc.manualInputs + (if likelyManualFlag st x = true then 1 else 0) := by
      cases hj : logJoinedExercise st x with
      | none => simp [statsStep, likelyManualFlag, hj]
      | some ex =>
        cases hd : x.duration_minutes with
        | none => simp [statsStep, likelyManualFlag, hj, hd]
        | some dur =>
          cases hc : ex.calories_per_minute with
          | none => simp [statsStep, likelyManualFlag, hj, hd, hc]
          | some cpm =>
            by_cases hz : cpm = 0 ∨ dur = 0
            · simp [statsStep, likelyManualFlag, hj, hd, hc, hz]
            · by_cases hpd :
                5 < |((x.calories_burned.getD 0 : ℤ) : ℚ) - cpm * dur| / (cpm * dur) * 100
              · simp [statsStep, likelyManualFlag, hj, hd, hc, hz, hpd]
              · simp [statsStep, likelyManualFlag, hj, hd, hc, hz, hpd]
    rw [List.foldl_cons, ih, List.countP_cons, hstep]
    cases hf : likelyManualFlag st x <;> simp [hf] <;> omega

/-- Claim C9: the smart suggestion is the single highest-priority applicable
one in the order tracker nudge, high-intensity cardio or long strength
session, new-user information, and none otherwise; and the tracker
classification holds exactly when the flagged likely-manual logs exceed 30
percent of all last-30-days workouts. -/
theorem c9_smart_suggestion_priority :
    (∀ (userStats : UserStats) (exercise : Exercise) (duration : ℚ) (calculated : ℤ),
        generateSmartSuggestion userStats exercise duration calculated
          = claimSuggestion userStats exercise duration)
    ∧ (∀ (st : St) (userId : ℕ) (now : ℤ),
        (getUserExerciseStats st userId now).is_likely_tracker_user = true
          ↔ 30 * (recentLogs st userId now).length
              < 100 * (recentLogs st userId now).countP (likelyManualFlag st)) := by
  constructor
  · intro s ex dur cal
    simp only [generateSmartSuggestion, claimSuggestion]
    by_cases h1 : s.is_likely_tracker_user = true <;>
      by_cases h2 : ex.category = Category.cardio ∧ cpmExceeds ex 10 = true <;>
      by_cases h3 : ex.category = Category.strength ∧ 20 < dur <;>
      by_cases h4 : s.total_workouts < 5 <;>
      simp [h1, h2, h3, h4]
  · intro st userId now
    by_cases h0 : (recentLogs st userId now).length = 0
    · rw [List.length_eq_zero] at h0
      simp [getUserExerciseStats, h0]
    · have hlen : (recentLogs st userId now).length ≠ 0 := h0
      have htq : (0 : ℚ) < ((recentLogs st userId now).length : ℚ) := by
        exact_mod_cast Nat.pos_of_ne_zero hlen
      simp only [getUserExerciseStats, hlen, if_false, ite_false, statsStep_manualInputs,
        Nat.zero_add, decide_eq_true_eq]
      rw [div_mul_eq_mul_div, lt_div_iff htq]
      constructor
      · intro h
        have hq : (30 : ℚ) * (recentLogs st userId now).length
            < 100 * (recentLogs st userId now).countP (likelyManualFlag st) := by
          push_cast
          linarith
        exact_mod_cast hq
      · intro h
        have hq : (30 : ℚ) * (recentLogs st userId now).length
            < 100 * (recentLogs st userId now).countP (likelyManualFlag st) := by
          exact_mod_cast h
        push_cast at hq ⊢
        linarith

instance : IsTotal ScoredRec (fun a b => b.ai_score ≤ a.ai_score) :=
  ⟨fun a b => le_total b.ai_score a.ai_score⟩

instance : IsTrans ScoredRec (fun a b => b.ai_score ≤ a.ai_score) :=
  ⟨fun _ _ _ h1 h2 => le_trans h2 h1⟩

/-- The source score formula coincides with the score formula worded by claim
C7. -/
theorem goalBasedScore_eq_claim (cfg : GoalConfig) (user : FitUser) (e : Exercise) :
    goalBasedScore cfg user e = claimGoalScore cfg user e := by
  have hlm : levelMap (user.activity_level.getD ActivityLevel.moderately_active)
      = expectedDifficultyFor (user.activity_level.getD ActivityLevel.moderately_active) := by
    cases user.activity_level.getD ActivityLevel.moderately_active <;> rfl
  simp only [goalBasedScore, claimGoalScore, hlm]
  ring

/-- Claim C7: the goal-based recommendations are exactly the active catalog
entries in the priority categories of the (defaulted) goal mapping, scored by
the claimed formula, sorted by score descending, and truncated to the
requested limit with default 8; an unrecognized goal uses the
improve_fitness mapping. -/
theorem c7_goal_based_scorer (st : St) (user : FitUser) (options : RecOptions) :
    ((getGoalBasedRecommendations st user options).length
        = min (jsLimit options.limit 8)
            (st.exercises.filter fun e =>
              (goalConfigFor user.fitness_goal).priorities.contains e.category
                && e.is_active).length)
    ∧ (∀ r ∈ getGoalBasedRecommendations st user options,
        r.exercise.is_active = true
        ∧ r.exercise.category ∈ (goalConfigFor user.fitness_goal).priorities
        ∧ r.ai_score = claimGoalScore (goalConfigFor user.fitness_goal) user r.exercise)
    ∧ (getGoalBasedRecommendations st user options).Pairwise
        (fun a b => b.ai_score ≤ a.ai_score)
    ∧ ((st.exercises.filter fun e =>
          (goalConfigFor user.fitness_goal).priorities.contains e.category
            && e.is_active).length ≤ jsLimit options.limit 8 →
        (getGoalBasedRecommendations st user options).Perm
          ((st.exercises.filter fun e =>
            (goalConfigFor user.fitness_goal).priorities.contains e.category
              && e.is_active).map
            fun e => ScoredRec.mk e (goalBasedScore (goalConfigFor user.fitness_goal) user e)))
    ∧ goalConfigFor none = goalMappings FitnessGoal.improve_fitness := by
  have hperm := List.perm_insertionSort (fun a b : ScoredRec => b.ai_score ≤ a.ai_score)
    ((st.exercises.filter fun e =>
        (goalConfigFor user.fitness_goal).priorities.contains e.category && e.is_active).map
      fun e => ScoredRec.mk e (goalBasedScore (goalConfigFor user.fitness_goal) user e))
  have hsorted := List.sorted_insertionSort (fun a b : ScoredRec => b.ai_score ≤ a.ai_score)
    ((st.exercises.filter fun e =>
        (goalConfigFor user.fitness_goal).priorities.contains e.category && e.is_active).map
      fun e => ScoredRec.mk e (goalBasedScore (goalConfigFor user.fitness_goal) user e))
  refine ⟨?_, ?_, ?_, ?_, rfl⟩
  · simp only [getGoalBasedRecommendations]
    rw [List.length_take, hperm.length_eq, List.length_map]
  · intro r hr
    have hr1 : r ∈ (st.exercises.filter fun e =>
        (goalConfigFor user.fitness_goal).priorities.contains e.category && e.is_active).map
        (fun e => ScoredRec.mk e (goalBasedScore (goalConfigFor user.fitness_goal) user e)) :=
      hperm.mem_iff.mp (List.mem_of_mem_take hr)
    rcases List.mem_map.mp hr1 with ⟨e, he, rfl⟩
    rcases List.mem_filter.mp he with ⟨_, hpred⟩
    rcases (Bool.and_eq_true _ _).mp hpred with ⟨hcontains, hact⟩
    exact ⟨hact, List.elem_iff.mp hcontains, goalBasedScore_eq_claim _ user e⟩
  · exact hsorted.sublist (List.take_sublist _ _)
  · intro hle
    have hlen : (List.insertionSort (fun a b : ScoredRec => b.ai_score ≤ a.ai_score)
        ((st.exercises.filter fun e =>
            (goalConfigFor user.fitness_goal).priorities.contains e.category && e.is_active).map
          fun e =>
            ScoredRec.mk e (goalBasedScore (goalConfigFor user.fitness_goal) user e))).length
        ≤ jsLimit options.limit 8 := by
      rw [hperm.length_eq, List.length_map]
      exact hle
    simp only [getGoalBasedRecommendations]
    rw [List.take_of_length_le hlen]
    exact hperm

/-- Store and user for the claim C7 witness: a lose_weight user and one
active cardio exercise. -/
def uC7 : FitUser :=
  { id := 3
    firebase_uid := "u7"
    daily_calorie_goal := none
    activity_level := some ActivityLevel.sedentary
    fitness_goal := some FitnessGoal.lose_weight }

/-- Concrete catalog exercise for the claim C7 witness. -/
def exJog : Exercise :=
  { id := 11
    name := "jog"
    category := Category.cardio
    difficulty_level := Difficulty.beginner
    calories_per_minute := some 9
    muscle_groups := []
    is_active := true }

/-- Concrete store for the claim C7 witness. -/
def stC7 : St := { users := [uC7], exercises := [exJog], foodEntries := [], exerciseLogs := [] }

/-- Witness for claim C7: with one candidate and the default limit, the
result is a permutation of the scored candidate list, and the membership
facts hold for its member. -/
theorem c7_goal_based_scorer_witness :
    ((getGoalBasedRecommendations stC7 uC7 { limit := none }).Perm
      ((stC7.exercises.filter fun e =>
          (goalConfigFor uC7.fitness_goal).priorities.contains e.category && e.is_active).map
        fun e => ScoredRec.mk e (goalBasedScore (goalConfigFor uC7.fitness_goal) uC7 e)))
    ∧ (ScoredRec.mk exJog 80).exercise.is_active = true
    ∧ (ScoredRec.mk exJog 80).ai_score
        = claimGoalScore (goalConfigFor uC7.fitness_goal) uC7 (ScoredRec.mk exJog 80).exercise := by
  have hmem : ScoredRec.mk exJog 80 ∈ getGoalBasedRecommendations stC7 uC7 { limit := none } := by
    norm_num +decide [getGoalBasedRecommendations, goalConfigFor, goalMappings, goalBasedScore,
      jsIndexOf, cpmExceeds, levelMap, jsLimit, List.filter, List.findIdx?, List.insertionSort,
      List.orderedInsert, List.take, stC7, uC7, exJog]
  have h := c7_goal_based_scorer stC7 uC7 { limit := none }
  have hlenle : (stC7.exercises.filter fun e =>
      (goalConfigFor uC7.fitness_goal).priorities.contains e.category && e.is_active).length
      ≤ jsLimit ({ limit := none } : RecOptions).limit 8 := by
    norm_num +decide [List.filter, jsLimit, stC7, uC7, exJog, goalConfigFor, goalMappings]
  exact ⟨h.2.2.2.1 hlenle, (h.2.1 _ hmem).1, (h.2.1 _ hmem).2.2⟩

instance : IsTotal FinalRec (fun a b => b.final_ai_score ≤ a.final_ai_score) :=
  ⟨fun a b => le_total b.final_ai_score a.final_ai_score⟩

instance : IsTrans FinalRec (fun a b => b.final_ai_score ≤ a.final_ai_score) :=
  ⟨fun _ _ _ h1 h2 => le_trans h2 h1⟩

/-- Unfolding equation of the dedup worker on a cons cell, with the seen test
phrased as list membership. -/
theorem dedupGo_cons (seen : List ℕ) (x : TaggedRec) (xs : List TaggedRec) :
    dedupGo seen (x :: xs)
      = if x.id ∈ seen then dedupGo seen xs else x :: dedupGo (x.id :: seen) xs := by
  by_cases h : x.id ∈ seen
  · rw [if_pos h]
    show (if seen.contains x.id = true then dedupGo seen xs
      else x :: dedupGo (x.id :: seen) xs) = dedupGo seen xs
    rw [if_pos (List.elem_iff.mpr h)]
  · rw [if_neg h]
    show (if seen.contains x.id = true then dedupGo seen xs
      else x :: dedupGo (x.id :: seen) xs) = x :: dedupGo (x.id :: seen) xs
    rw [if_neg fun hc => h (List.elem_iff.mp hc)]

/-- Every element of the dedup worker output comes from its input list. -/
theorem dedupGo_subset (seen : List ℕ) (l : List TaggedRec) :
    ∀ r ∈ dedupGo seen l, r ∈ l := by
  induction l generalizing seen with
  | nil => simp [dedupGo]
  | cons x xs ih =>
    intro r hr
    rw [dedupGo_cons] at hr
    by_cases hx : x.id ∈ seen
    · rw [if_pos hx] at hr
      exact List.mem_cons_of_mem x (ih seen r hr)
    · rw [if_neg hx] at hr
      rcases List.mem_cons.mp hr with rfl | hr
      · exact List.mem_cons_self r xs
      · exact List.mem_cons_of_mem x (ih _ r hr)

/-- The dedup worker output has pairwise distinct ids, avoids the seen set,
and keeps exactly the first occurrence of each id. -/
theorem dedupGo_spec (seen : List ℕ) (l : List TaggedRec) :
    ((dedupGo seen l).map (fun r => r.id)).Nodup
    ∧ ∀ r ∈ dedupGo seen l, ¬ r.id ∈ seen ∧ l.find? (fun x => x.id == r.id) = some r := by
  induction l generalizing seen with
  | nil => simp [dedupGo]
  | cons x xs ih =>
    by_cases hx : x.id ∈ seen
    · have h := ih seen
      refine ⟨by rw [dedupGo_cons, if_pos hx]; exact h.1, fun r hr => ?_⟩
      rw [dedupGo_cons, if_pos hx] at hr
      have hmem := h.2 r hr
      have hne : (x.id == r.id) = false := by
        refine beq_eq_false_iff_ne.mpr fun hcontra => hmem.1 ?_
        rw [← hcontra]
        exact hx
      exact ⟨hmem.1, by rw [List.find?_cons_of_neg _ (by simp [hne]), hmem.2]⟩
    · have h := ih (x.id :: seen)
      constructor
      · have hids : ∀ r ∈ dedupGo (x.id :: seen) xs, r.id ≠ x.id := by
          intro r hr hcontra
          exact (h.2 r hr).1 (by rw [hcontra]; exact List.mem_cons_self x.id seen)
        have hnotin : ¬ x.id ∈ (dedupGo (x.id :: seen) xs).map (fun r => r.id) := by
          intro hc
          rcases List.mem_map.mp hc with ⟨r, hr, hid⟩
          exact hids r hr hid
        rw [dedupGo_cons, if_neg hx]
        simpa [List.nodup_cons, hnotin] using h.1
      · intro r hr
        rw [dedupGo_cons, if_neg hx] at hr
        rcases List.mem_cons.mp hr with rfl | hr'
        · exact ⟨hx, by rw [List.find?_cons_of_pos _ (by simp)]⟩
        · have hmem := h.2 r hr'
          have hrne : r.id ≠ x.id := fun hcontra =>
            hmem.1 (by rw [hcontra]; exact List.mem_cons_self x.id seen)
          have hrseen : ¬ r.id ∈ seen := fun hc => hmem.1 (List.mem_cons_of_mem _ hc)
          refine ⟨hrseen, ?_⟩
          rw [List.find?_cons_of_neg _ (by simp [hrne.symm]), hmem.2]

/-- The fixed source weights are nonnegative and bounded by the goal-based
weight 0.35. -/
theorem sourceWeight_bounds (s : RecSource) :
    0 ≤ sourceWeight s ∧ sourceWeight s ≤ 35/100 := by
  cases s <;> norm_num [sourceWeight]

/-- Rounding a nonnegative raw score scaled by a weight of at most 0.35 never
exceeds the raw score. -/
theorem jsRound_mul_le (r w : ℚ) (hr : 0 ≤ r) (hw0 : 0 ≤ w) (hw : w ≤ 35/100) :
    ((jsRound (r * w) : ℤ) : ℚ) ≤ r := by
  have h2 : r * w ≤ r * (35/100) := mul_le_mul_of_nonneg_left hw hr
  rcases le_or_lt (10/13 : ℚ) r with h | h
  · have h1 : ((jsRound (r * w) : ℤ) : ℚ) ≤ r * w + 1/2 := by
      simpa [jsRound] using Int.floor_le (r * w + 1/2)
    nlinarith
  · have hub : r * w + 1/2 < 1 := by nlinarith
    have hlb : (0 : ℚ) ≤ r * w + 1/2 := by positivity
    have hz : jsRound (r * w) = 0 := by
      rw [jsRound, Int.floor_eq_zero_iff]
      exact ⟨hlb, hub⟩
    simp [hz, hr]

/-- All recommendations tagged by the fusion concatenation carry the weight
of their source. -/
theorem tagged_weight_eq (goalBased progressive behavioral balance adaptive : List RawRec) :
    ∀ t ∈ tagWith RecSource.goal_based (35/100) goalBased
        ++ tagWith RecSource.progressive (25/100) progressive
        ++ tagWith RecSource.behavioral (20/100) behavioral
        ++ tagWith RecSource.balance (15/100) balance
        ++ tagWith RecSource.adaptive (5/100) adaptive,
      t.weight = sourceWeight t.source := by
  intro t ht
  simp only [tagWith, List.mem_append, List.mem_map] at ht
  rcases ht with ((((⟨r, _, rfl⟩ | ⟨r, _, rfl⟩) | ⟨r, _, rfl⟩) | ⟨r, _, rfl⟩) | ⟨r, _, rfl⟩) <;>
    simp [sourceWeight]

/-- A tagged recommendation whose id occurs among the goal-based raw
recommendations and which is the first occurrence of its id in the fusion
concatenation is goal-based sourced. -/
theorem first_occurrence_goal_based
    (goalBased progressive behavioral balance adaptive : List RawRec) (t : TaggedRec)
    (hid : t.id ∈ goalBased.map (fun g => g.id))
    (hfind : (tagWith RecSource.goal_based (35/100) goalBased
        ++ tagWith RecSource.progressive (25/100) progressive
        ++ tagWith RecSource.behavioral (20/100) behavioral
        ++ tagWith RecSource.balance (15/100) balance
        ++ tagWith RecSource.adaptive (5/100) adaptive).find?
          (fun x => x.id == t.id) = some t) :
    t.source = RecSource.goal_based := by
  have hsome : ((tagWith RecSource.goal_based (35/100) goalBased).find?
      (fun x => x.id == t.id)).isSome = true := by
    rw [List.find?_isSome]
    rcases List.mem_map.mp hid with ⟨g, hg, hgid⟩
    exact ⟨{ id := g.id, ai_score := g.ai_score, source := RecSource.goal_based
             weight := 35/100 },
      List.mem_map.mpr ⟨g, hg, rfl⟩, by simp [hgid]⟩
  rcases Option.isSome_iff_exists.mp hsome with ⟨y, hy⟩
  have : (tagWith RecSource.goal_based (35/100) goalBased
      ++ tagWith RecSource.progressive (25/100) progressive
      ++ tagWith RecSource.behavioral (20/100) behavioral
      ++ tagWith RecSource.balance (15/100) balance
      ++ tagWith RecSource.adaptive (5/100) adaptive).find? (fun x => x.id == t.id)
      = some y := by
    simp only [List.find?_append, hy]
    rfl
  have hyt : y = t := by rw [this] at hfind; exact Option.some.inj hfind
  subst hyt
  have hymem := List.mem_of_find?_eq_some hy
  rcases List.mem_map.mp hymem with ⟨g, _, rfl⟩
  rfl

/-- Claim C4 as amended: every fused recommendation list has pairwise
distinct exercise ids with the first occurrence winning (an id contributed by
the goal-based scorer always surfaces with the goal-based source), its length
is capped at the fixed 10 of the fusion slice - not at the requested limit -
and every item carries final_ai_score = round(ai_score * weight) with the
weight of its source, which never exceeds a nonnegative raw score. -/
theorem c4_fusion_properties_amended
    (goalBased progressive behavioral balance adaptive : List RawRec) :
    (((fuseRecommendations goalBased progressive behavioral balance adaptive).map
        fun r => r.id).Nodup)
    ∧ (fuseRecommendations goalBased progressive behavioral balance adaptive).length ≤ 10
    ∧ (∀ r ∈ fuseRecommendations goalBased progressive behavioral balance adaptive,
        r.weight = sourceWeight r.source
        ∧ r.final_ai_score = jsRound (r.ai_score * r.weight)
        ∧ (0 ≤ r.ai_score → ((r.final_ai_score : ℤ) : ℚ) ≤ r.ai_score)
        ∧ (r.id ∈ goalBased.map (fun g => g.id) → r.source = RecSource.goal_based)) := by
  have hperm := List.perm_insertionSort
    (fun a b : FinalRec => b.final_ai_score ≤ a.final_ai_score)
    ((deduplicateRecommendations
        (tagWith RecSource.goal_based (35/100) goalBased
          ++ tagWith RecSource.progressive (25/100) progressive
          ++ tagWith RecSource.behavioral (20/100) behavioral
          ++ tagWith RecSource.balance (15/100) balance
          ++ tagWith RecSource.adaptive (5/100) adaptive)).map fun r =>
      FinalRec.mk r.id r.ai_score r.source r.weight (jsRound (r.ai_score * r.weight))
        (calculateConfidence r))
  have hdedup := dedupGo_spec [] (tagWith RecSource.goal_based (35/100) goalBased
    ++ tagWith RecSource.progressive (25/100) progressive
    ++ tagWith RecSource.behavioral (20/100) behavioral
    ++ tagWith RecSource.balance (15/100) balance
    ++ tagWith RecSource.adaptive (5/100) adaptive)
  refine ⟨?_, ?_, ?_⟩
  · have hfinal : ((deduplicateRecommendations
        (tagWith RecSource.goal_based (35/100) goalBased
          ++ tagWith RecSource.progressive (25/100) progressive
          ++ tagWith RecSource.behavioral (20/100) behavioral
          ++ tagWith RecSource.balance (15/100) balance
          ++ tagWith RecSource.adaptive (5/100) adaptive)).map fun r =>
        FinalRec.mk r.id r.ai_score r.source r.weight (jsRound (r.ai_score * r.weight))
          (calculateConfidence r)).map (fun r => r.id)
        = (deduplicateRecommendations
            (tagWith RecSource.goal_based (35/100) goalBased
              ++ tagWith RecSource.progressive (25/100) progressive
              ++ tagWith RecSource.behavioral (20/100) behavioral
              ++ tagWith RecSource.balance (15/100) balance
              ++ tagWith RecSource.adaptive (5/100) adaptive)).map (fun r => r.id) := by
      rw [List.map_map]
      rfl
    have hnodupSorted : ((List.insertionSort
        (fun a b : FinalRec => b.final_ai_score ≤ a.final_ai_score)
        ((deduplicateRecommendations
            (tagWith RecSource.goal_based (35/100) goalBased
              ++ tagWith RecSource.progressive (25/100) progressive
              ++ tagWith RecSource.behavioral (20/100) behavioral
              ++ tagWith RecSource.balance (15/100) balance
              ++ tagWith RecSource.adaptive (5/100) adaptive)).map fun r =>
          FinalRec.mk r.id r.ai_score r.source r.weight (jsRound (r.ai_score * r.weight))
            (calculateConfidence r))).map (fun r => r.id)).Nodup := by
      rw [(hperm.map (fun r => r.id)).nodup_iff, hfinal]
      exact hdedup.1
    have hsub : ((fuseRecommendations goalBased progressive behavioral balance adaptive).map
        (fun r => r.id)).Sublist ((List.insertionSort
          (fun a b : FinalRec => b.final_ai_score ≤ a.final_ai_score)
          ((deduplicateRecommendations
              (tagWith RecSource.goal_based (35/100) goalBased
                ++ tagWith RecSource.progressive (25/100) progressive
                ++ tagWith RecSource.behavioral (20/100) behavioral
                ++ tagWith RecSource.balance (15/100) balance
                ++ tagWith RecSource.adaptive (5/100) adaptive)).map fun r =>
            FinalRec.mk r.id r.ai_score r.source r.weight (jsRound (r.ai_score * r.weight))
              (calculateConfidence r))).map (fun r => r.id)) := by
      simp only [fuseRecommendations, List.map_take]
      exact List.take_sublist _ _
    exact hnodupSorted.sublist hsub
  · simp only [fuseRecommendations]
    rw [List.length_take]
    exact min_le_left _ _
  · intro r hr
    have hr1 : r ∈ (deduplicateRecommendations
        (tagWith RecSource.goal_based (35/100) goalBased
          ++ tagWith RecSource.progressive (25/100) progressive
          ++ tagWith RecSource.behavioral (20/100) behavioral
          ++ tagWith RecSource.balance (15/100) balance
          ++ tagWith RecSource.adaptive (5/100) adaptive)).map (fun t =>
        FinalRec.mk t.id t.ai_score t.source t.weight (jsRound (t.ai_score * t.weight))
          (calculateConfidence t)) :=
      hperm.mem_iff.mp (List.mem_of_mem_take hr)
    rcases List.mem_map.mp hr1 with ⟨t, ht, rfl⟩
    have htAll : t ∈ tagWith RecSource.goal_based (35/100) goalBased
        ++ tagWith RecSource.progressive (25/100) progressive
        ++ tagWith RecSource.behavioral (20/100) behavioral
        ++ tagWith RecSource.balance (15/100) balance
        ++ tagWith RecSource.adaptive (5/100) adaptive :=
      dedupGo_subset [] _ t ht
    have hw := tagged_weight_eq goalBased progressive behavioral balance adaptive t htAll
    refine ⟨hw, rfl, fun hnn => ?_, fun hid => ?_⟩
    · have hb := sourceWeight_bounds t.source
      exact jsRound_mul_le t.ai_score t.weight hnn (hw ▸ hb.1) (hw ▸ hb.2)
    · exact first_occurrence_goal_based goalBased progressive behavioral balance adaptive t
        hid (hdedup.2 t ht).2

/-- Concrete user for the claim C4 counterexample: goal lose_weight. -/
def uC4 : FitUser :=
  { id := 9
    firebase_uid := "u4"
    daily_calorie_goal := none
    activity_level := none
    fitness_goal := some FitnessGoal.lose_weight }

/-- Concrete active cardio exercise, id 1. -/
def exRun : Exercise :=
  { id := 1
    name := "run"
    category := Category.cardio
    difficulty_level := Difficulty.beginner
    calories_per_minute := some 10
    muscle_groups := []
    is_active := true }

/-- Concrete active cardio exercise, id 2. -/
def exRow : Exercise := { exRun with id := 2, name := "row" }

/-- Concrete active cardio exercise, id 3. -/
def exBike : Exercise := { exRun with id := 3, name := "bike" }

/-- Concrete store for the claim C4 counterexample. -/
def stC4 : St :=
  { users := [uC4], exercises := [exRun, exRow, exBike], foodEntries := [], exerciseLogs := [] }

/-- A balance-scorer contribution as that scorer emits it: one exercise not
already recommended, flat raw score 75. -/
def balC4 : List RawRec := [{ id := 4, ai_score := 75 }]

/-- Counterexample to claim C4 as stated: in a recommend call with requested
limit 2, the goal-based scorer honors the limit (2 items), but the fusion
ignores the limit and slices at the fixed 10, so one extra balance-scorer
exercise makes the fused list 3 long - exceeding the requested limit 2. -/
theorem c4_fusion_limit_counterexample :
    2 < (fuseRecommendations
        (toRawRecs (getGoalBasedRecommendations stC4 uC4 { limit := some 2 }))
        [] [] balC4 []).length := by
  norm_num +decide [fuseRecommendations, toRawRecs, getGoalBasedRecommendations, goalConfigFor,
    goalMappings, goalBasedScore, jsIndexOf, cpmExceeds, levelMap, jsLimit,
    List.filter, List.findIdx?, List.insertionSort, List.orderedInsert,
    tagWith, deduplicateRecommendations, dedupGo, calculateConfidence, jsRound,
    stC4, uC4, exRun, exRow, exBike, balC4, List.take]

/-- Witness for the amended claim C4: applying the fusion theorem to the
singleton goal-based input of raw score 80, whose fused item is
FinalRec 1 80 goal_based 0.35 28 80. -/
theorem c4_fusion_properties_amended_witness :
    (FinalRec.mk 1 80 RecSource.goal_based (35/100) 28 80).weight
        = sourceWeight (FinalRec.mk 1 80 RecSource.goal_based (35/100) 28 80).source
    ∧ (FinalRec.mk 1 80 RecSource.goal_based (35/100) 28 80).final_ai_score
        = jsRound ((FinalRec.mk 1 80 RecSource.goal_based (35/100) 28 80).ai_score
            * (FinalRec.mk 1 80 RecSource.goal_based (35/100) 28 80).weight)
    ∧ (((FinalRec.mk 1 80 RecSource.goal_based (35/100) 28 80).final_ai_score : ℤ) : ℚ)
        ≤ (FinalRec.mk 1 80 RecSource.goal_based (35/100) 28 80).ai_score
    ∧ (FinalRec.mk 1 80 RecSource.goal_based (35/100) 28 80).source
        = RecSource.goal_based := by
  have hmem : FinalRec.mk 1 80 RecSource.goal_based (35/100) 28 80
      ∈ fuseRecommendations [{ id := 1, ai_score := 80 }] [] [] [] [] := by
    norm_num [fuseRecommendations, tagWith, deduplicateRecommendations, dedupGo,
      calculateConfidence, jsRound, List.insertionSort, List.orderedInsert, List.take]
  have h := (c4_fusion_properties_amended [{ id := 1, ai_score := 80 }] [] [] [] []).2.2
    (FinalRec.mk 1 80 RecSource.goal_based (35/100) 28 80) hmem
  exact ⟨h.1, h.2.1, h.2.2.1 (by norm_num), h.2.2.2 (by norm_num)⟩

/-- Concrete user for the claim C10 witness: no daily goal. -/
def uC10 : FitUser :=
  { id := 4
    firebase_uid := "u10"
    daily_calorie_goal := none
    activity_level := none
    fitness_goal := none }

/-- Concrete store for the claim C10 witness. -/
def stC10 : St := { users := [uC10], exercises := [], foodEntries := [], exerciseLogs := [] }

/-- Witness for claim C10: a goal-less user is under goal every day and the
weekly counts partition the 7 days. -/
theorem c10_no_goal_days_count_under_witness :
    ((calculateDailyBalance stC10 "u10" 0).is_under_goal = true
      ∧ (calculateDailyBalance stC10 "u10" 0).is_over_goal = false)
    ∧ (getWeeklyBalance stC10 "u10" 0).weekly_totals.days_under_goal
        + (getWeeklyBalance stC10 "u10" 0).weekly_totals.days_over_goal = 7 :=
  ⟨(c10_no_goal_days_count_under stC10 "u10").1 0
      (by norm_num [calculateDailyBalance, getUserDailyGoal, findUserByUid, List.find?,
        stC10, uC10]),
    (c10_no_goal_days_count_under stC10 "u10").2 0⟩

end FitU
